import Mathlib

/-!
Verification of the FounderHubAI pitch-deck document model, change-tracking
cache and suggestion-orchestration logic, shallowly embedded from
`apps/frontend/app/pitch-deck/page.tsx`,
`apps/frontend/app/pitch-deck/components/ManualEditModal.tsx` and
`apps/frontend/types/slide.ts`.

JavaScript strings are modelled as Lean `String` values; the JavaScript
string operations used by the code (`startsWith`, `endsWith`, `slice`,
`includes`, `trim`, `toLowerCase`, `join`) are given executable list-based
definitions below so that every theorem can be checked on concrete inputs.
-/

/-! ## JavaScript string primitives -/

/-- `needle` occurs as a contiguous substring of the character list.
Mirrors JavaScript `String.prototype.includes`. -/
def strContainsAux (needle : List Char) : List Char → Bool
  | [] => needle.isEmpty
  | c :: rest => needle.isPrefixOf (c :: rest) || strContainsAux needle rest

/-- JavaScript `s.includes(pat)`. -/
def strContains (s pat : String) : Bool := strContainsAux pat.data s.data

/-- JavaScript `s.startsWith(pat)`. -/
def strStartsWith (s pat : String) : Bool := pat.data.isPrefixOf s.data

/-- JavaScript `s.endsWith(pat)`. -/
def strEndsWith (s pat : String) : Bool := pat.data.isSuffixOf s.data

/-- JavaScript `s.slice(pre, -suf)`: drop `pre` characters from the front
and `suf` characters from the back. -/
def strSliceDropEnds (s : String) (pre suf : Nat) : String :=
  ⟨(s.data.drop pre).take ((s.data.drop pre).length - suf)⟩

/-- JavaScript `s.trim()`: strip whitespace from both ends. -/
def jsTrim (s : String) : String :=
  ⟨((s.data.dropWhile Char.isWhitespace).reverse.dropWhile Char.isWhitespace).reverse⟩

/-- Lower-case a single ASCII character, as JavaScript's case-insensitive
regex flag does for the ASCII patterns used by the code. -/
def jsToLowerChar (c : Char) : Char :=
  if 'A' ≤ c && c ≤ 'Z' then Char.ofNat (c.toNat + 32) else c

/-- JavaScript `s.toLowerCase()` restricted to ASCII. -/
def jsToLower (s : String) : String := ⟨s.data.map jsToLowerChar⟩

/-- Case-insensitive substring test: models a `/pat/i.test(s)` regex test
where `pat` is a literal lower-case word. -/
def strContainsCI (s pat : String) : Bool := strContains (jsToLower s) pat

/-- JavaScript `Array.prototype.join(sep)` on an array of strings. -/
def joinSep (sep : String) : List String → String
  | [] => ""
  | [x] => x
  | x :: y :: rest => x ++ sep ++ joinSep sep (y :: rest)

/-! ## Data model (`types/slide.ts`) -/

/-- Geometric position of a block (`Position` in `types/slide.ts`). -/
structure Position where
  x : Int
  y : Int
deriving Repr, DecidableEq

/-- Dimensions of a block (`Size` in `types/slide.ts`). -/
structure Size where
  width : Int
  height : Int
deriving Repr, DecidableEq

/-- A chart/table payload (`VisualBlock` in `types/slide.ts`).  The `data`
and `config` fields are `any` in TypeScript and are carried around
verbatim by all the code under verification, so they are modelled
opaquely as a serialized string and an optional string. -/
structure VisualBlock where
  vtype : String
  data : String
  config : Option String
deriving Repr, DecidableEq

/-- A positioned slide block (`SlideBlock = TextBlock | VisualBlockContainer`
in `types/slide.ts`). -/
inductive SlideBlock where
  | text (id : String) (position : Position) (size : Size) (content : String)
      (isEditable : Bool)
  | visual (id : String) (position : Position) (size : Size) (visual : VisualBlock)
deriving Repr, DecidableEq

/-- The `id` field shared by both block variants. -/
def SlideBlock.id : SlideBlock → String
  | .text i _ _ _ _ => i
  | .visual i _ _ _ => i

/-- A slide (`Slide` in `types/slide.ts`).  `blocks` is declared required
in the `Slide` interface but optional in `EditorSlide`, and the save
handler guards on `blocks && Array.isArray(blocks)` at runtime, so it is
modelled as an `Option`: `none` is a missing/undefined `blocks` field,
`some []` is a present but empty array. -/
structure Slide where
  title : String
  content : String
  design : String
  blocks : Option (List SlideBlock)
  visuals : List VisualBlock
  imageUrl : Option String
  videoUrl : Option String
  theme : Option String
deriving Repr, DecidableEq

/-! ## Save-time derived-field materialization
(`page.tsx`, Save Changes onClick, lines 1360–1403) -/

/-- The normalization applied to each text block's rich-text HTML inside
the Save Changes handler: if the whole string is wrapped in a single
`<p>...</p>` whose inner text contains no nested `<p>` or `</p>`, the
wrapper is stripped (`page.tsx` lines 1372–1378). -/
def stripParagraphWrapper (html : String) : String :=
  if strStartsWith html "<p>" && strEndsWith html "</p>" then
    let inner := strSliceDropEnds html 3 4
    if !(strContains inner "<p>") && !(strContains inner "</p>") then inner
    else html
  else html

/-- One step of the `blocks.forEach` loop in the Save Changes handler:
a text block appends its normalized content plus `"\n"` to the
accumulated content string, a visual block pushes its payload onto the
accumulated visuals list (`page.tsx` lines 1370–1383). -/
def saveMaterializeStep (acc : String × List VisualBlock) (b : SlideBlock) :
    String × List VisualBlock :=
  match b with
  | .text _ _ _ c _ => (acc.1 ++ stripParagraphWrapper c ++ "\n", acc.2)
  | .visual _ _ _ v => (acc.1, acc.2 ++ [v])

/-- The Save Changes onClick handler's effect on the selected slide
(`page.tsx` lines 1362–1391): when the `blocks` field is present
(`blocks && Array.isArray(blocks)` — note an empty array passes this
guard), `content` and `visuals` are recomputed from the blocks and the
accumulated content is trimmed; when `blocks` is undefined the slide's
existing `content`/`visuals` are kept. -/
def saveSlideChanges (slide : Slide) : Slide :=
  match slide.blocks with
  | none => slide
  | some bs =>
    let r := bs.foldl saveMaterializeStep ("", [])
    { slide with content := jsTrim r.1, visuals := r.2 }

/-- The normalized contents of the text blocks, in block order. -/
def normalizedTextContents (bs : List SlideBlock) : List String :=
  bs.filterMap fun b =>
    match b with
    | .text _ _ _ c _ => some (stripParagraphWrapper c)
    | .visual _ _ _ _ => none

/-- The payloads of the visual blocks, in block order. -/
def visualPayloads (bs : List SlideBlock) : List VisualBlock :=
  bs.filterMap fun b =>
    match b with
    | .text _ _ _ _ _ => none
    | .visual _ _ _ v => some v

/-- Modelled from the spec: the content the specification says save-time
materialization produces — the blank-line (`"\n\n"`) join of the
normalized text-block contents in block order.  Stated only to be
compared against the implementation's `saveSlideChanges`. -/
def specBlankLineContent (bs : List SlideBlock) : String :=
  joinSep "\n\n" (normalizedTextContents bs)

/-- Concatenation of the chunks each followed by a newline — the shape the
`forEach` accumulator produces. -/
def concatNL : List String → String
  | [] => ""
  | c :: rest => c ++ "\n" ++ concatNL rest

/-! ## Claim C1 -/

/-- Unfolding the `forEach` accumulator: the fold appends the
newline-terminated normalized text contents to the content accumulator
and the visual payloads to the visuals accumulator. -/
theorem saveFoldl (bs : List SlideBlock) (a : String) (v : List VisualBlock) :
    bs.foldl saveMaterializeStep (a, v) =
      (a ++ concatNL (normalizedTextContents bs), v ++ visualPayloads bs) := by
  induction bs generalizing a v with
  | nil => simp [concatNL, normalizedTextContents, visualPayloads]
  | cons b rest ih =>
    cases b with
    | text i p sz c e =>
      simp only [List.foldl_cons, saveMaterializeStep, normalizedTextContents,
        visualPayloads, List.filterMap_cons, ih, concatNL]
      refine Prod.ext ?_ rfl
      simp [String.append_assoc]
    | visual i p sz vb =>
      simp only [List.foldl_cons, saveMaterializeStep, normalizedTextContents,
        visualPayloads, List.filterMap_cons, ih, concatNL]
      refine Prod.ext rfl ?_
      simp

/-- For a non-empty chunk list, the newline-terminated concatenation is
the `"\n"`-join followed by one trailing newline. -/
theorem concatNL_eq_joinSep (cs : List String) (h : cs ≠ []) :
    concatNL cs = joinSep "\n" cs ++ "\n" := by
  induction cs with
  | nil => exact absurd rfl h
  | cons c rest ih =>
    cases rest with
    | nil => simp [concatNL, joinSep, String.append_empty]
    | cons d tail =>
      have h2 := ih (by simp)
      show c ++ "\n" ++ concatNL (d :: tail) =
        (c ++ "\n" ++ joinSep "\n" (d :: tail)) ++ "\n"
      simp [h2, String.append_assoc]

/-- Claim C1 (amended): for every slide whose `blocks` field is present,
the save-time materialization sets `content` to the trimmed
single-newline join of the normalized text-block contents in block order
(each chunk is newline-terminated before the final trim), and sets
`visuals` to the ordered list of the visual blocks' payloads.  The
specification's blank-line (`"\n\n"`) join is refuted below. -/
theorem saveSlideChanges_materializes (s : Slide) (bs : List SlideBlock)
    (h : s.blocks = some bs) :
    (saveSlideChanges s).content =
      jsTrim (joinSep "\n" (normalizedTextContents bs) ++ "\n") ∧
    (saveSlideChanges s).visuals = visualPayloads bs := by
  simp only [saveSlideChanges, h, saveFoldl, String.empty_append, List.nil_append]
  refine ⟨?_, trivial⟩
  rcases hn : normalizedTextContents bs with _ | ⟨c, rest⟩
  · simp only [concatNL, joinSep]
    decide
  · rw [concatNL_eq_joinSep _ (by simp)]

/-- Two text blocks with contents `"a"` and `"b"`, as the manual block
editor would produce them. -/
def c1Blocks : List SlideBlock :=
  [SlideBlock.text "text-1" ⟨50, 50⟩ ⟨500, 80⟩ "a" true,
   SlideBlock.text "text-2" ⟨50, 150⟩ ⟨500, 80⟩ "b" true]

/-- A slide holding `c1Blocks`. -/
def c1Slide : Slide :=
  { title := "The Problem", content := "old", design := "", blocks := some c1Blocks,
    visuals := [], imageUrl := none, videoUrl := none, theme := none }

/-- Claim C1 counterexample: on a slide with two text blocks `"a"` and
`"b"`, the save materialization produces `"a\nb"` (single-newline join),
not the blank-line join `"a\n\nb"` stated by the claim. -/
theorem saveSlideChanges_not_blank_line_join :
    (saveSlideChanges c1Slide).content = "a\nb" ∧
    specBlankLineContent c1Blocks = "a\n\nb" ∧
    (saveSlideChanges c1Slide).content ≠ specBlankLineContent c1Blocks := by
  decide

/-- Claim C1 witness: the amended theorem applied to the concrete slide
`c1Slide`. -/
theorem saveSlideChanges_materializes_witness :
    (saveSlideChanges c1Slide).content =
      jsTrim (joinSep "\n" (normalizedTextContents c1Blocks) ++ "\n") ∧
    (saveSlideChanges c1Slide).visuals = visualPayloads c1Blocks :=
  saveSlideChanges_materializes c1Slide c1Blocks rfl

/-! ## Claim C2 -/

/-- A freshly bulk-generated slide as `handleAIGenerate` (`page.tsx`
lines 800–810) constructs it: non-empty `content`, empty `blocks` array. -/
def c2Slide : Slide :=
  { title := "The Problem", content := "Restaurants waste 30% of food",
    design := "", blocks := some [], visuals := [], imageUrl := none,
    videoUrl := none, theme := none }

/-- A slide whose `blocks` field is absent altogether, as slides loaded
from backend JSON may be. -/
def c2SlideNoBlocks : Slide :=
  { title := "The Problem", content := "Restaurants waste 30% of food",
    design := "", blocks := none, visuals := [], imageUrl := none,
    videoUrl := none, theme := none }

/-- Claim C2 failing input evaluated: the save handler's guard
`blocks && Array.isArray(blocks)` is passed by an empty array, so saving
a freshly bulk-generated slide (empty `blocks`, non-empty `content`)
erases its `content` instead of preserving it; only a slide whose
`blocks` field is missing entirely is preserved. -/
theorem saveSlideChanges_wipes_empty_blocks_slide :
    (saveSlideChanges c2Slide).content = "" ∧
    c2Slide.content = "Restaurants waste 30% of food" ∧
    (saveSlideChanges c2Slide).content ≠ c2Slide.content ∧
    saveSlideChanges c2SlideNoBlocks = c2SlideNoBlocks := by
  decide

/-! ## Claim C3: the change-tracking fingerprint
(`generateSlidesHash`, `page.tsx` lines 238–240) -/

/-- The per-slide component of the fingerprint:
`` `${slide.title}:${slide.content}:${slide.design}` ``. -/
def slideEntry (s : Slide) : String :=
  s.title ++ ":" ++ s.content ++ ":" ++ s.design

/-- `generateSlidesHash` (`page.tsx` lines 238–240):
`slidesToHash.map(slide => ...).join('|')`. -/
def generateSlidesHash (slidesToHash : List Slide) : String :=
  joinSep "|" (slidesToHash.map slideEntry)

/-- Left cancellation for string concatenation. -/
theorem strCancelLeft (a b c : String) (h : a ++ b = a ++ c) : b = c := by
  have hd : a.data ++ b.data = a.data ++ c.data := by
    rw [← String.data_append, ← String.data_append, h]
  have h2 := List.append_cancel_left hd
  cases b
  cases c
  exact congrArg String.mk h2

/-- Right cancellation for string concatenation. -/
theorem strCancelRight (a b c : String) (h : b ++ a = c ++ a) : b = c := by
  have hd : b.data ++ a.data = c.data ++ a.data := by
    rw [← String.data_append, ← String.data_append, h]
  have h2 := List.append_cancel_right hd
  cases b
  cases c
  exact congrArg String.mk h2

/-- Changing exactly one of `title`, `content`, `design` (the other two
staying fixed) always changes the slide's fingerprint component. -/
theorem slideEntry_ne_of_one_field_change (s1 s2 : Slide)
    (h : (s1.title ≠ s2.title ∧ s1.content = s2.content ∧ s1.design = s2.design) ∨
         (s1.title = s2.title ∧ s1.content ≠ s2.content ∧ s1.design = s2.design) ∨
         (s1.title = s2.title ∧ s1.content = s2.content ∧ s1.design ≠ s2.design)) :
    slideEntry s1 ≠ slideEntry s2 := by
  intro heq
  unfold slideEntry at heq
  rcases h with ⟨ht, hc, hd⟩ | ⟨ht, hc, hd⟩ | ⟨ht, hc, hd⟩
  · rw [hc, hd] at heq
    have h1 := strCancelRight _ _ _ heq
    have h2 := strCancelRight _ _ _ h1
    have h3 := strCancelRight _ _ _ h2
    exact ht (strCancelRight _ _ _ h3)
  · rw [ht, hd] at heq
    have h1 := strCancelRight _ _ _ heq
    have h2 := strCancelRight _ _ _ h1
    exact hc (strCancelLeft _ _ _ h2)
  · rw [ht, hc] at heq
    exact hd (strCancelLeft _ _ _ heq)

/-- Unfolding `joinSep` at a cons with a non-empty tail. -/
theorem joinSep_cons_of_ne_nil (sep x : String) (l : List String) (h : l ≠ []) :
    joinSep sep (x :: l) = x ++ sep ++ joinSep sep l := by
  cases l with
  | nil => exact absurd rfl h
  | cons y rest => rfl

/-- The join of two lists that agree everywhere except one slot determines
that slot: equal joins force the slot entries to be equal. -/
theorem joinSep_slot_injective (sep : String) (A : List String) (x y : String)
    (B : List String) (h : joinSep sep (A ++ x :: B) = joinSep sep (A ++ y :: B)) :
    x = y := by
  induction A with
  | nil =>
    cases B with
    | nil => exact h
    | cons b t =>
      simp only [List.nil_append] at h
      rw [joinSep_cons_of_ne_nil sep x (b :: t) (by simp),
        joinSep_cons_of_ne_nil sep y (b :: t) (by simp)] at h
      exact strCancelRight _ _ _ (strCancelRight _ _ _ h)
  | cons a A' ih =>
    simp only [List.cons_append] at h
    rw [joinSep_cons_of_ne_nil sep a (A' ++ x :: B) (by simp),
      joinSep_cons_of_ne_nil sep a (A' ++ y :: B) (by simp)] at h
    exact ih (strCancelLeft _ _ _ h)

/-- Claim C3: the fingerprint is the `"|"`-join of the per-slide
`title:content:design` entries; it is pure and deterministic; it depends
only on `title`, `content` and `design` (so changing only blocks layout
or visuals leaves it unchanged); and changing exactly one slide's
`title`, `content` or `design` while everything else stays fixed changes
it. -/
theorem generateSlidesHash_spec :
    (∀ d : List Slide, generateSlidesHash d =
      joinSep "|" (d.map fun s => s.title ++ ":" ++ s.content ++ ":" ++ s.design)) ∧
    (∀ d : List Slide, generateSlidesHash d = generateSlidesHash d) ∧
    (∀ d1 d2 : List Slide,
      List.Forall₂ (fun a b => a.title = b.title ∧ a.content = b.content ∧
        a.design = b.design) d1 d2 →
      generateSlidesHash d1 = generateSlidesHash d2) ∧
    (∀ (pre suf : List Slide) (s1 s2 : Slide),
      ((s1.title ≠ s2.title ∧ s1.content = s2.content ∧ s1.design = s2.design) ∨
       (s1.title = s2.title ∧ s1.content ≠ s2.content ∧ s1.design = s2.design) ∨
       (s1.title = s2.title ∧ s1.content = s2.content ∧ s1.design ≠ s2.design)) →
      generateSlidesHash (pre ++ s1 :: suf) ≠ generateSlidesHash (pre ++ s2 :: suf)) := by
  refine ⟨fun d => rfl, fun d => rfl, ?_, ?_⟩
  · intro d1 d2 hf
    unfold generateSlidesHash
    have : d1.map slideEntry = d2.map slideEntry := by
      induction hf with
      | nil => rfl
      | cons hab _ ih =>
        simp only [List.map_cons, ih, List.cons.injEq, and_true]
        unfold slideEntry
        rw [hab.1, hab.2.1, hab.2.2]
    rw [this]
  · intro pre suf s1 s2 hch heq
    unfold generateSlidesHash at heq
    rw [List.map_append, List.map_cons, List.map_append, List.map_cons] at heq
    exact slideEntry_ne_of_one_field_change s1 s2 hch
      (joinSep_slot_injective "|" (pre.map slideEntry) _ _ (suf.map slideEntry) heq)

/-- A concrete slide used to instantiate the fingerprint theorems. -/
def w1Slide : Slide :=
  { title := "Traction", content := "100 users", design := "blue background",
    blocks := some c1Blocks, visuals := [], imageUrl := none, videoUrl := none,
    theme := none }

/-- `w1Slide` with only its `content` changed. -/
def w2Slide : Slide := { w1Slide with content := "200 users" }

/-- `w1Slide` with only its `blocks` and `visuals` changed (the
content-relevant fields untouched). -/
def w3Slide : Slide :=
  { w1Slide with blocks := some [], visuals := [⟨"pie", "[]", none⟩] }

/-- Claim C3 witness: the fingerprint theorem applied to concrete decks —
a content change flips the fingerprint, a blocks/visuals-only change
does not. -/
theorem generateSlidesHash_spec_witness :
    generateSlidesHash [w1Slide] ≠ generateSlidesHash [w2Slide] ∧
    generateSlidesHash [w1Slide] = generateSlidesHash [w3Slide] :=
  ⟨generateSlidesHash_spec.2.2.2 [] [] w1Slide w2Slide (by decide),
   generateSlidesHash_spec.2.2.1 [w1Slide] [w3Slide]
     (List.Forall₂.cons (by decide) List.Forall₂.nil)⟩

/-! ## Claims C4 and C10: analysis state machine
(`updateAIAnalysis`, `hasSlidesChanged`, `handleShowAIFeedback`,
`page.tsx` lines 238–334 and 938–953) -/

/-- JavaScript string truthiness: non-empty. -/
def strNonEmpty (s : String) : Bool := !s.data.isEmpty

/-- JavaScript `x || d` for an optional string `x`: the fallback is used
when `x` is undefined or empty. -/
def strOrElse (o : Option String) (d : String) : String :=
  match o with
  | some s => if s.data.isEmpty then d else s
  | none => d

/-- JavaScript truthiness of an optional string field. -/
def strTruthy (o : Option String) : Bool :=
  match o with
  | some s => strNonEmpty s
  | none => false

/-- The `metrics` React state (`page.tsx` lines 150–155). -/
structure Metrics where
  score : Nat
  narrative_flow : String
  visual_design : String
  data_credibility : String
deriving Repr, DecidableEq

/-- The metrics reset applied on an analysis failure
(`page.tsx` lines 319–324). -/
def notAnalyzedMetrics : Metrics :=
  { score := 0, narrative_flow := "Not analyzed", visual_design := "Not analyzed",
    data_credibility := "Not analyzed" }

/-- The JSON body of a successful `/analyze-pitch-deck` response.  Fields
the backend may omit are optional; `updateAIAnalysis` substitutes
`'Not analyzed'` via `||`. -/
structure AnalyzeResponse where
  score : Nat
  narrative_flow : Option String
  visual_design : Option String
  data_credibility : Option String
  feedback : Option String
deriving Repr, DecidableEq

/-- The React state touched by the analysis/feedback flow. -/
structure AppState where
  slides : List Slide
  metrics : Metrics
  aiFeedback : String
  lastFeedbackSlidesHash : String
  slidesModified : Bool
  analysisLoading : Bool
  showFeedbackModal : Bool
  error : Option String
deriving Repr, DecidableEq

/-- `hasSlidesChanged` (`page.tsx` lines 243–246): the current deck
fingerprint differs from the one recorded at the last feedback. -/
def hasSlidesChanged (st : AppState) : Bool :=
  generateSlidesHash st.slides != st.lastFeedbackSlidesHash

/-- `updateAIAnalysis` (`page.tsx` lines 257–334).  The external call's
outcome is passed in as `resp`.  On success the metrics are set from the
response (with `'Not analyzed'` fallbacks), and — only when feedback was
requested and the response carries a truthy `feedback` — the feedback
text is stored and the recorded fingerprint advances to the hash of the
slides sent with the request.  On failure the metrics are reset, the
feedback is replaced by a failure message when it was requested, and the
error is rethrown (returned).  The `finally` clause clears the loading
flag on every path. -/
def updateAIAnalysis (st : AppState) (slidesToAnalyze : List Slide)
    (getFeedback : Bool) (resp : Except String AnalyzeResponse) :
    AppState × Except String AnalyzeResponse :=
  match resp with
  | .ok data =>
    let st1 := { st with metrics :=
      { score := data.score,
        narrative_flow := strOrElse data.narrative_flow "Not analyzed",
        visual_design := strOrElse data.visual_design "Not analyzed",
        data_credibility := strOrElse data.data_credibility "Not analyzed" } }
    let st2 :=
      if getFeedback && strTruthy data.feedback then
        { st1 with aiFeedback := data.feedback.getD "",
                   lastFeedbackSlidesHash := generateSlidesHash slidesToAnalyze }
      else st1
    ({ st2 with analysisLoading := false }, .ok data)
  | .error e =>
    let st1 := { st with metrics := notAnalyzedMetrics }
    let st2 :=
      if getFeedback then
        { st1 with aiFeedback := "Failed to generate feedback. Please try again." }
      else st1
    ({ st2 with analysisLoading := false }, .error e)

/-- `handleShowAIFeedback` (`page.tsx` lines 938–953).  Returns the new
state and whether the external analysis call was made.  The cached
feedback is shown without a call exactly when the slides have not
changed and a feedback string is present; otherwise `updateAIAnalysis`
runs with `getFeedback = true`, and on success the modified flag is
cleared and the modal shown, while on failure the error is stored. -/
def handleShowAIFeedback (st : AppState) (resp : Except String AnalyzeResponse) :
    AppState × Bool :=
  if !hasSlidesChanged st && strNonEmpty st.aiFeedback then
    ({ st with showFeedbackModal := true }, false)
  else
    match updateAIAnalysis st st.slides true resp with
    | (st1, .ok _) =>
      ({ st1 with slidesModified := false, showFeedbackModal := true }, true)
    | (st1, .error e) => ({ st1 with error := some e }, true)

/-- String truthiness agrees with inequality to the empty string. -/
theorem strNonEmpty_iff (s : String) : strNonEmpty s = true ↔ s ≠ "" := by
  cases s with
  | mk l =>
    cases l with
    | nil => simp [strNonEmpty]
    | cons c t =>
      simp only [strNonEmpty, List.isEmpty_cons, Bool.not_false, true_iff]
      intro h
      simpa using congrArg String.data h

/-- `handleShowAIFeedback` never changes the deck itself. -/
theorem handleShowAIFeedback_slides_eq (st : AppState)
    (resp : Except String AnalyzeResponse) :
    (handleShowAIFeedback st resp).1.slides = st.slides := by
  unfold handleShowAIFeedback
  cases hc : (!hasSlidesChanged st && strNonEmpty st.aiFeedback) with
  | true => simp
  | false =>
    simp only [Bool.false_eq_true, if_false]
    cases resp with
    | ok data =>
      simp only [updateAIAnalysis]
      cases hf : strTruthy data.feedback <;> simp
    | error e => simp [updateAIAnalysis]

/-- After a successful analysis whose response carries feedback, the
recorded fingerprint equals the fingerprint of the slides used for the
request. -/
theorem handleShowAIFeedback_lastHash (st : AppState) (data : AnalyzeResponse)
    (h : strTruthy data.feedback = true) :
    (handleShowAIFeedback st (.ok data)).1.lastFeedbackSlidesHash =
      generateSlidesHash st.slides := by
  unfold handleShowAIFeedback
  cases hc : (!hasSlidesChanged st && strNonEmpty st.aiFeedback) with
  | true =>
    simp only [if_true]
    have h1 : hasSlidesChanged st = false := by
      rcases Bool.and_eq_true_iff.mp hc with ⟨h1, _⟩
      simpa using h1
    have h2 : generateSlidesHash st.slides = st.lastFeedbackSlidesHash := by
      simpa [hasSlidesChanged, bne_iff_ne] using h1
    simpa using h2.symm
  | false =>
    simp [updateAIAnalysis, h]

/-- Claim C4: a feedback request is served from cache (no external call)
exactly when the deck fingerprint is unchanged and a non-empty feedback
string is present; after a successful analysis response carrying
feedback, the recorded fingerprint equals the fingerprint of the slides
used for the request, so `hasSlidesChanged` is false immediately after;
and it turns true again once any single slide's content or design is
changed. -/
theorem handleShowAIFeedback_cache_policy :
    (∀ (st : AppState) (resp : Except String AnalyzeResponse),
      (handleShowAIFeedback st resp).2 = false ↔
        (hasSlidesChanged st = false ∧ st.aiFeedback ≠ "")) ∧
    (∀ (st : AppState) (data : AnalyzeResponse),
      strTruthy data.feedback = true →
      ((handleShowAIFeedback st (.ok data)).1.lastFeedbackSlidesHash =
          generateSlidesHash st.slides ∧
        hasSlidesChanged (handleShowAIFeedback st (.ok data)).1 = false)) ∧
    (∀ (st : AppState) (data : AnalyzeResponse) (pre suf : List Slide)
      (s1 s2 : Slide),
      strTruthy data.feedback = true →
      (handleShowAIFeedback st (.ok data)).1.slides = pre ++ s1 :: suf →
      ((s1.title = s2.title ∧ s1.content ≠ s2.content ∧ s1.design = s2.design) ∨
       (s1.title = s2.title ∧ s1.content = s2.content ∧ s1.design ≠ s2.design)) →
      hasSlidesChanged
        { (handleShowAIFeedback st (.ok data)).1 with slides := pre ++ s2 :: suf } =
        true) := by
  refine ⟨?_, ?_, ?_⟩
  · intro st resp
    unfold handleShowAIFeedback
    cases hc : (!hasSlidesChanged st && strNonEmpty st.aiFeedback) with
    | true =>
      rcases Bool.and_eq_true_iff.mp hc with ⟨h1, h2⟩
      simp only [if_true]
      constructor
      · intro _
        exact ⟨by simpa using h1, (strNonEmpty_iff _).mp h2⟩
      · intro _
        trivial
    | false =>
      simp only [Bool.false_eq_true, if_false]
      constructor
      · intro hfalse
        exfalso
        cases resp with
        | ok data =>
          unfold updateAIAnalysis at hfalse
          cases hf : strTruthy data.feedback <;> simp [hf] at hfalse
        | error e =>
          simp [updateAIAnalysis] at hfalse
      · rintro ⟨h1, h2⟩
        exfalso
        have : (!hasSlidesChanged st && strNonEmpty st.aiFeedback) = true :=
          Bool.and_eq_true_iff.mpr ⟨by simp [h1], (strNonEmpty_iff _).mpr h2⟩
        rw [this] at hc
        exact Bool.true_eq_false.mp hc
  · intro st data h
    refine ⟨handleShowAIFeedback_lastHash st data h, ?_⟩
    rw [hasSlidesChanged, handleShowAIFeedback_slides_eq,
      handleShowAIFeedback_lastHash st data h, bne_self_eq_false]
  · intro st data pre suf s1 s2 h hslides hch
    have hulla : generateSlidesHash (pre ++ s2 :: suf) ≠
        generateSlidesHash (pre ++ s1 :: suf) := by
      intro heq
      unfold generateSlidesHash at heq
      rw [List.map_append, List.map_cons, List.map_append, List.map_cons] at heq
      have hone := joinSep_slot_injective "|" (pre.map slideEntry) _ _
        (suf.map slideEntry) heq
      rcases hch with ⟨h1, h2, h3⟩ | ⟨h1, h2, h3⟩
      · exact slideEntry_ne_of_one_field_change s2 s1
          (Or.inr (Or.inl ⟨h1.symm, fun e => h2 e.symm, h3.symm⟩)) hone
      · exact slideEntry_ne_of_one_field_change s2 s1
          (Or.inr (Or.inr ⟨h1.symm, h2.symm, fun e => h3 e.symm⟩)) hone
    have hlast : (handleShowAIFeedback st (.ok data)).1.lastFeedbackSlidesHash =
        generateSlidesHash st.slides := handleShowAIFeedback_lastHash st data h
    have hst : st.slides = pre ++ s1 :: suf := by
      rw [← handleShowAIFeedback_slides_eq st (.ok data)]
      exact hslides
    simp only [hasSlidesChanged, hlast, hst]
    exact bne_iff_ne.mpr hulla

/-- A concrete pre-analysis state: one slide, no cached feedback yet. -/
def c4State : AppState :=
  { slides := [w1Slide], metrics := notAnalyzedMetrics, aiFeedback := "",
    lastFeedbackSlidesHash := "", slidesModified := true,
    analysisLoading := false, showFeedbackModal := false, error := none }

/-- A concrete successful analysis response carrying feedback. -/
def c4Resp : AnalyzeResponse :=
  { score := 85, narrative_flow := some "Strong", visual_design := some "Polished",
    data_credibility := some "High", feedback := some "Add real numbers." }

/-- Claim C4 witness: the cache-policy theorem applied to a concrete
state and response — the fingerprint is recorded, `hasSlidesChanged`
is false right after, and true again after a content edit. -/
theorem handleShowAIFeedback_cache_policy_witness :
    ((handleShowAIFeedback c4State (.ok c4Resp)).1.lastFeedbackSlidesHash =
        generateSlidesHash c4State.slides ∧
      hasSlidesChanged (handleShowAIFeedback c4State (.ok c4Resp)).1 = false) ∧
    hasSlidesChanged
      { (handleShowAIFeedback c4State (.ok c4Resp)).1 with slides := [w2Slide] } =
      true :=
  ⟨handleShowAIFeedback_cache_policy.2.1 c4State c4Resp (by decide),
   handleShowAIFeedback_cache_policy.2.2 c4State c4Resp [] [] w1Slide w2Slide
     (by decide) (by decide) (by decide)⟩

/-- Claim C10: on an analysis failure the metrics are reset (score 0,
all three ratings `'Not analyzed'`), the feedback text is replaced by
the failure message when feedback was requested, and the error is
rethrown; and on every outcome — success or failure — the loading flag
ends up cleared. -/
theorem updateAIAnalysis_error_handling :
    (∀ (st : AppState) (sl : List Slide) (gf : Bool) (e : String),
      (updateAIAnalysis st sl gf (.error e)).1.metrics.score = 0 ∧
      (updateAIAnalysis st sl gf (.error e)).1.metrics.narrative_flow =
        "Not analyzed" ∧
      (updateAIAnalysis st sl gf (.error e)).1.metrics.visual_design =
        "Not analyzed" ∧
      (updateAIAnalysis st sl gf (.error e)).1.metrics.data_credibility =
        "Not analyzed" ∧
      (gf = true → (updateAIAnalysis st sl gf (.error e)).1.aiFeedback =
        "Failed to generate feedback. Please try again.") ∧
      (updateAIAnalysis st sl gf (.error e)).2 = .error e) ∧
    (∀ (st : AppState) (sl : List Slide) (gf : Bool)
      (resp : Except String AnalyzeResponse),
      (updateAIAnalysis st sl gf resp).1.analysisLoading = false) := by
  constructor
  · intro st sl gf e
    cases gf <;> simp [updateAIAnalysis, notAnalyzedMetrics]
  · intro st sl gf resp
    cases resp with
    | ok data =>
      unfold updateAIAnalysis
      cases (gf && strTruthy data.feedback) <;> simp
    | error e =>
      unfold updateAIAnalysis
      cases gf <;> simp

/-- Claim C10 witness: the error-handling theorem applied to a concrete
state, a concrete failure, and a concrete success. -/
theorem updateAIAnalysis_error_handling_witness :
    ((updateAIAnalysis c4State [w1Slide] true (.error "boom")).1.metrics.score = 0 ∧
      (updateAIAnalysis c4State [w1Slide] true
          (.error "boom")).1.metrics.narrative_flow = "Not analyzed" ∧
      (updateAIAnalysis c4State [w1Slide] true
          (.error "boom")).1.metrics.visual_design = "Not analyzed" ∧
      (updateAIAnalysis c4State [w1Slide] true
          (.error "boom")).1.metrics.data_credibility = "Not analyzed" ∧
      (true = true → (updateAIAnalysis c4State [w1Slide] true
          (.error "boom")).1.aiFeedback =
        "Failed to generate feedback. Please try again.") ∧
      (updateAIAnalysis c4State [w1Slide] true (.error "boom")).2 =
        .error "boom") ∧
    (updateAIAnalysis c4State [w1Slide] true (.ok c4Resp)).1.analysisLoading =
      false :=
  ⟨updateAIAnalysis_error_handling.1 c4State [w1Slide] true "boom",
   updateAIAnalysis_error_handling.2 c4State [w1Slide] true (.ok c4Resp)⟩

/-! ## Claim C5: applying a suggestion
(`handleSuggestionClick`, `page.tsx` lines 459–488, and
`getVisualTypeFromSuggestion`, lines 958–965) -/

/-- An AI suggestion as held in the `aiSuggestions` React state:
`{ type: 'Content' | 'Design', text }`. -/
structure Suggestion where
  type : String
  text : String
deriving Repr, DecidableEq

/-- `getVisualTypeFromSuggestion` (`page.tsx` lines 958–965): the
case-insensitive keyword tests, in source order.  The regexes
`/scatter ?plot/` and `/scatter ?chart/` match with or without the
space. -/
def getVisualTypeFromSuggestion (suggestion : String) : Option String :=
  if strContainsCI suggestion "pie chart" then some "pie"
  else if strContainsCI suggestion "bar graph" ||
      strContainsCI suggestion "bar chart" then some "bar"
  else if strContainsCI suggestion "line graph" ||
      strContainsCI suggestion "line chart" then some "line"
  else if strContainsCI suggestion "scatter plot" ||
      strContainsCI suggestion "scatterplot" ||
      strContainsCI suggestion "scatter chart" ||
      strContainsCI suggestion "scatterchart" then some "scatter"
  else if strContainsCI suggestion "table" then some "table"
  else none

/-- The slide update performed by `handleSuggestionClick` (`page.tsx`
lines 464–476): a suggestion whose text matches the visual-keyword
vocabulary is appended to `content` (visual creation is not performed);
otherwise a Content suggestion is appended to `content` and a Design
suggestion to `design`.  Appending is literal concatenation with a
newline separator (`(slide.content || '') + '\n' + suggestion.text`;
the `|| ''` fallback is the identity on strings). -/
def applySuggestionToSlide (slide : Slide) (suggestion : Suggestion) : Slide :=
  match getVisualTypeFromSuggestion suggestion.text with
  | some _ => { slide with content := slide.content ++ "\n" ++ suggestion.text }
  | none =>
    if suggestion.type = "Content" then
      { slide with content := slide.content ++ "\n" ++ suggestion.text }
    else if suggestion.type = "Design" then
      { slide with design := slide.design ++ "\n" ++ suggestion.text }
    else slide

/-- Claim C5: a Content suggestion with text `B` turns content `A` into
`A ++ "\n" ++ B` (design untouched); a Design suggestion whose text has
no visual keyword appends to `design` (content untouched); a suggestion
whose text matches the visual vocabulary appends to `content`; and
applying the same suggestion twice appends twice — no deduplication. -/
theorem applySuggestion_appends :
    (∀ (s : Slide) (t : String),
      (applySuggestionToSlide s ⟨"Content", t⟩).content = s.content ++ "\n" ++ t ∧
      (applySuggestionToSlide s ⟨"Content", t⟩).design = s.design) ∧
    (∀ (s : Slide) (t : String), getVisualTypeFromSuggestion t = none →
      (applySuggestionToSlide s ⟨"Design", t⟩).design = s.design ++ "\n" ++ t ∧
      (applySuggestionToSlide s ⟨"Design", t⟩).content = s.content) ∧
    (∀ (s : Slide) (sug : Suggestion),
      (getVisualTypeFromSuggestion sug.text).isSome = true →
      (applySuggestionToSlide s sug).content = s.content ++ "\n" ++ sug.text ∧
      (applySuggestionToSlide s sug).design = s.design) ∧
    (∀ (s : Slide) (t : String),
      (applySuggestionToSlide (applySuggestionToSlide s ⟨"Content", t⟩)
          ⟨"Content", t⟩).content = s.content ++ "\n" ++ t ++ "\n" ++ t) := by
  have hcontent : ∀ (s : Slide) (t : String),
      (applySuggestionToSlide s ⟨"Content", t⟩).content = s.content ++ "\n" ++ t ∧
      (applySuggestionToSlide s ⟨"Content", t⟩).design = s.design := by
    intro s t
    unfold applySuggestionToSlide
    cases h : getVisualTypeFromSuggestion t <;> simp [h]
  refine ⟨hcontent, ?_, ?_, ?_⟩
  · intro s t h
    simp [applySuggestionToSlide, h]
  · intro s sug h
    rcases Option.isSome_iff_exists.mp h with ⟨v, hv⟩
    simp [applySuggestionToSlide, hv]
  · intro s t
    rw [(hcontent _ t).1, (hcontent s t).1]

/-- Claim C5 witness: the append theorem applied to a concrete slide,
a concrete Design suggestion, and a concrete visual-keyword
suggestion. -/
theorem applySuggestion_appends_witness :
    ((applySuggestionToSlide w1Slide ⟨"Design", "Use a blue background"⟩).design =
        w1Slide.design ++ "\n" ++ "Use a blue background" ∧
      (applySuggestionToSlide w1Slide ⟨"Design", "Use a blue background"⟩).content =
        w1Slide.content) ∧
    ((applySuggestionToSlide w1Slide ⟨"Design", "Add a Pie Chart of costs"⟩).content =
        w1Slide.content ++ "\n" ++ "Add a Pie Chart of costs" ∧
      (applySuggestionToSlide w1Slide ⟨"Design", "Add a Pie Chart of costs"⟩).design =
        w1Slide.design) :=
  ⟨applySuggestion_appends.2.1 w1Slide "Use a blue background" (by decide),
   applySuggestion_appends.2.2.1 w1Slide ⟨"Design", "Add a Pie Chart of costs"⟩
     (by decide)⟩

/-! ## Claims C6 and C7: the suggestion refresh
(`fetchAISuggestion`, `fetchAISuggestions`, `page.tsx` lines 397–448) -/

/-- `fetchAISuggestion` (`page.tsx` lines 397–420): the external call's
outcome is passed in as `resp`; a non-ok response throws (is an error),
an ok response yields `{ type, text: data.suggestion }`.  The `slide`
argument only shapes the request body. -/
def fetchAISuggestion (type : String) (slide : Slide)
    (resp : Except String String) : Except String Suggestion :=
  match resp with
  | .ok suggestionText => .ok ⟨type, suggestionText⟩
  | .error e => .error e

/-- Default used to model the JavaScript indexing `slides[slideIdx]`,
which is only reached under the bounds guard. -/
def defaultSlide : Slide :=
  { title := "", content := "", design := "", blocks := none, visuals := [],
    imageUrl := none, videoUrl := none, theme := none }

/-- `fetchAISuggestions` (`page.tsx` lines 431–448): under the bounds
guard, the Content suggestion is awaited first; only if it succeeds is
the Design suggestion awaited; only if both succeed is the
`aiSuggestions` state replaced with the two-element list.  Returns the
new `aiSuggestions` state and the promise outcome seen by the caller. -/
def fetchAISuggestions (aiSuggestions : List Suggestion) (slideIdx : Nat)
    (slides : List Slide) (contentResp designResp : Except String String) :
    List Suggestion × Except String Unit :=
  if slideIdx < slides.length then
    let slide := slides.getD slideIdx defaultSlide
    match fetchAISuggestion "Content" slide contentResp with
    | .error e => (aiSuggestions, .error e)
    | .ok contentSuggestion =>
      match fetchAISuggestion "Design" slide designResp with
      | .error e => (aiSuggestions, .error e)
      | .ok designSuggestion => ([contentSuggestion, designSuggestion], .ok ())
  else (aiSuggestions, .ok ())

/-- Claim C6: when the Content call succeeds and the Design call fails,
the suggestion list is left untouched and the error surfaces to the
caller; and in general the previous list is either kept unchanged or
replaced by the two fresh suggestions with both calls succeeded —
never a partial update. -/
theorem fetchAISuggestions_all_or_nothing :
    (∀ (prev : List Suggestion) (i : Nat) (slides : List Slide)
      (ct e : String), i < slides.length →
      fetchAISuggestions prev i slides (.ok ct) (.error e) = (prev, .error e)) ∧
    (∀ (prev : List Suggestion) (i : Nat) (slides : List Slide)
      (cr dr : Except String String),
      (fetchAISuggestions prev i slides cr dr).1 = prev ∨
      (∃ ct dt, cr = .ok ct ∧ dr = .ok dt ∧
        (fetchAISuggestions prev i slides cr dr).1 =
          [⟨"Content", ct⟩, ⟨"Design", dt⟩])) := by
  constructor
  · intro prev i slides ct e hi
    simp [fetchAISuggestions, fetchAISuggestion, hi]
  · intro prev i slides cr dr
    unfold fetchAISuggestions
    by_cases hi : i < slides.length
    · simp only [hi, if_true]
      cases cr with
      | error e => simp [fetchAISuggestion]
      | ok ct =>
        cases dr with
        | error e => simp [fetchAISuggestion]
        | ok dt =>
          right
          exact ⟨ct, dt, rfl, rfl, by simp [fetchAISuggestion]⟩
    · simp [hi]

/-- Claim C6 witness: the all-or-nothing theorem applied to a concrete
previous list, deck, and a Content-ok/Design-error outcome. -/
theorem fetchAISuggestions_all_or_nothing_witness :
    fetchAISuggestions [⟨"Content", "old"⟩, ⟨"Design", "old"⟩] 0 [w1Slide]
        (.ok "new content idea") (.error "Failed to fetch suggestion") =
      ([⟨"Content", "old"⟩, ⟨"Design", "old"⟩],
        .error "Failed to fetch suggestion") :=
  fetchAISuggestions_all_or_nothing.1
    [⟨"Content", "old"⟩, ⟨"Design", "old"⟩] 0 [w1Slide] "new content idea"
    "Failed to fetch suggestion" (by decide)

/-! ## Claim C7: issuance order of the two suggestion calls -/

/-- An event in the suggestion-refresh execution: an external call is
issued, or its response arrives. -/
inductive FetchEvent where
  | request (type : String)
  | response (type : String)
deriving Repr, DecidableEq

/-- The events produced by one `await fetchAISuggestion(type, ...)`:
the request is issued and its response is received before control moves
past the `await`. -/
def awaitCall (type : String) : List FetchEvent :=
  [.request type, .response type]

/-- The event trace of `fetchAISuggestions` (`page.tsx` lines 436–443):
`const contentSuggestion = await fetchAISuggestion('Content', slide)`
runs to completion before
`const designSuggestion = await fetchAISuggestion('Design', slide)`
is evaluated. -/
def fetchAISuggestionsTrace : List FetchEvent :=
  awaitCall "Content" ++ awaitCall "Design"

/-- Index of the first occurrence of an event in a trace. -/
def eventIndex (e : FetchEvent) : List FetchEvent → Nat
  | [] => 0
  | x :: rest => if x = e then 0 else eventIndex e rest + 1

/-- Two calls are concurrently in flight in a trace when each one's
request precedes the other's response. -/
def callsOverlap (t : List FetchEvent) (a b : String) : Bool :=
  decide (eventIndex (.request b) t < eventIndex (.response a) t) &&
  decide (eventIndex (.request a) t < eventIndex (.response b) t)

/-- Claim C7 evaluated on the code's trace: the Design request is only
issued after the Content response has arrived, so the two calls are
never in flight at the same time — the refresh is sequential, not
concurrent.  (The two-element ordered result list itself is established
in the claim C6 theorem.) -/
theorem fetchAISuggestions_sequential_not_concurrent :
    callsOverlap fetchAISuggestionsTrace "Content" "Design" = false ∧
    eventIndex (.response "Content") fetchAISuggestionsTrace <
      eventIndex (.request "Design") fetchAISuggestionsTrace := by
  decide

/-! ## Claim C8: removing a block
(`handleRemoveBlock`, `ManualEditModal.tsx` lines 334–337) -/

/-- A `react-grid-layout` item as built by `getDefaultLayout` and
`handleAddText`/`handleAddVisual` (`ManualEditModal.tsx`). -/
structure LayoutItem where
  i : String
  x : Int
  y : Int
  w : Int
  h : Int
  minW : Int
  minH : Int
deriving Repr, DecidableEq

/-- `handleRemoveBlock` (`ManualEditModal.tsx` lines 334–337): filters
the block list and the layout list by id. -/
def handleRemoveBlock (blocks : List SlideBlock) (layout : List LayoutItem)
    (id : String) : List SlideBlock × List LayoutItem :=
  (blocks.filter fun b => b.id != id, layout.filter fun l => l.i != id)

/-- Claim C8: removing an id that occurs in neither list is a no-op and
raises nothing, and removing the same id twice equals removing it
once. -/
theorem handleRemoveBlock_absent_noop :
    (∀ (blocks : List SlideBlock) (layout : List LayoutItem) (id : String),
      (∀ b ∈ blocks, b.id ≠ id) → (∀ l ∈ layout, l.i ≠ id) →
      handleRemoveBlock blocks layout id = (blocks, layout)) ∧
    (∀ (blocks : List SlideBlock) (layout : List LayoutItem) (id : String),
      handleRemoveBlock (handleRemoveBlock blocks layout id).1
          (handleRemoveBlock blocks layout id).2 id =
        handleRemoveBlock blocks layout id) := by
  constructor
  · intro blocks layout id hb hl
    unfold handleRemoveBlock
    refine Prod.ext ?_ ?_
    · exact List.filter_eq_self.mpr fun b hbmem => bne_iff_ne.mpr (hb b hbmem)
    · exact List.filter_eq_self.mpr fun l hlmem => bne_iff_ne.mpr (hl l hlmem)
  · intro blocks layout id
    unfold handleRemoveBlock
    refine Prod.ext ?_ ?_ <;>
      simp [List.filter_filter]

/-- Claim C8 witness: removing an absent id from a concrete block list
and layout leaves both unchanged. -/
theorem handleRemoveBlock_absent_noop_witness :
    handleRemoveBlock c1Blocks [⟨"text-1", 0, 0, 6, 4, 3, 2⟩] "text-99" =
      (c1Blocks, [⟨"text-1", 0, 0, 6, 4, 3, 2⟩]) :=
  handleRemoveBlock_absent_noop.1 c1Blocks [⟨"text-1", 0, 0, 6, 4, 3, 2⟩]
    "text-99" (by decide) (by decide)

/-! ## Claim C9: media attachment exclusivity
(`handleFileChange`, `page.tsx` lines 832–851) -/

/-- The branch taken by `handleFileChange` on the selected file:
`file.type.startsWith('image/')`, `file.type.startsWith('video/')`, or
neither. -/
inductive FileKind where
  | image
  | video
  | other
deriving Repr, DecidableEq

/-- `handleFileChange`'s update of the selected slide (`page.tsx` lines
836–850): an image sets `imageUrl` and clears `videoUrl` to undefined;
a video sets `videoUrl` and clears `imageUrl`; any other file type
leaves the slide unchanged. -/
def handleFileChange (slide : Slide) (kind : FileKind) (url : String) : Slide :=
  match kind with
  | .image => { slide with imageUrl := some url, videoUrl := none }
  | .video => { slide with videoUrl := some url, imageUrl := none }
  | .other => slide

/-- Claim C9: attaching an image sets `imageUrl` and clears `videoUrl`,
attaching a video sets `videoUrl` and clears `imageUrl`, so no slide
produced by a media-setting branch has both fields set at once. -/
theorem handleFileChange_media_exclusive (slide : Slide) (url : String) :
    ((handleFileChange slide .image url).imageUrl = some url ∧
      (handleFileChange slide .image url).videoUrl = none) ∧
    ((handleFileChange slide .video url).videoUrl = some url ∧
      (handleFileChange slide .video url).imageUrl = none) ∧
    ¬((handleFileChange slide .image url).imageUrl.isSome = true ∧
      (handleFileChange slide .image url).videoUrl.isSome = true) ∧
    ¬((handleFileChange slide .video url).imageUrl.isSome = true ∧
      (handleFileChange slide .video url).videoUrl.isSome = true) ∧
    (∀ kind : FileKind,
      ¬(slide.imageUrl.isSome = true ∧ slide.videoUrl.isSome = true) →
      ¬((handleFileChange slide kind url).imageUrl.isSome = true ∧
        (handleFileChange slide kind url).videoUrl.isSome = true)) := by
  refine ⟨by simp [handleFileChange], by simp [handleFileChange],
    by simp [handleFileChange], by simp [handleFileChange], ?_⟩
  intro kind h
  cases kind with
  | image => simp [handleFileChange]
  | video => simp [handleFileChange]
  | other => exact h

/-- Claim C9 witness: the exclusivity theorem applied to a concrete
slide and file kind, discharging the no-both-set hypothesis there. -/
theorem handleFileChange_media_exclusive_witness :
    ¬((handleFileChange w1Slide .other "blob:demo").imageUrl.isSome = true ∧
      (handleFileChange w1Slide .other "blob:demo").videoUrl.isSome = true) :=
  (handleFileChange_media_exclusive w1Slide "blob:demo").2.2.2.2 .other (by decide)
